import Mathlib

/-!
Shallow embedding of the `data_osisaf` repository (OSI-SAF low-resolution
sea-ice drift utilities) and verification of its specification claims.

Source files embedded:
  * `icedrift_lr.py`  — `construct_filename`, `extract_data_from_ds`,
    `estimate_velocity`, `open_remote_file`, `open_local_file`.
  * `src/icedrift.py` — `grab_OSISAF_drift` (legacy local reader).

Python `datetime` arithmetic (`date ± timedelta(days=1)`) is embedded as
calendar successor/predecessor functions over a proleptic-Gregorian date
type, together with a day-ordinal function used to justify that these
functions really move one day.  NumPy arrays with NaN entries are embedded
as functions `Nat × Nat → Option ℚ`, with `none` playing the role of NaN
and arithmetic propagating `none`.  `pint` unit conversion appears as
explicit rational scale factors (e.g. m/day → cm/s is `· * (100/86400)`).
-/

namespace OSISAF

/-! ## Calendar model (embedding of Python `datetime` day arithmetic) -/

/-- Gregorian leap-year test, as in the proleptic Gregorian calendar used
by Python `datetime`. -/
def isLeap (y : Nat) : Bool :=
  y % 4 == 0 && (y % 100 != 0 || y % 400 == 0)

/-- Number of days in month `m` (1–12) of year `y`. -/
def daysInMonth (y m : Nat) : Nat :=
  if m = 2 then (if isLeap y then 29 else 28)
  else if m = 4 ∨ m = 6 ∨ m = 9 ∨ m = 11 then 30
  else 31

/-- Number of days in year `y`. -/
def daysInYear (y : Nat) : Nat :=
  if isLeap y then 366 else 365

/-- A calendar date (year, month 1–12, day 1–`daysInMonth`). -/
structure Date where
  year : Nat
  month : Nat
  day : Nat
deriving DecidableEq, Repr

/-- Validity of a date: the calendar range Python `datetime` accepts
(year ≥ 1, month 1–12, day within the month). -/
def Date.Valid (d : Date) : Prop :=
  1 ≤ d.year ∧ 1 ≤ d.month ∧ d.month ≤ 12 ∧ 1 ≤ d.day ∧ d.day ≤ daysInMonth d.year d.month

instance (d : Date) : Decidable d.Valid := by
  unfold Date.Valid; infer_instance

/-- `date + timedelta(days = 1)`: the next calendar day. -/
def nextDay (d : Date) : Date :=
  if d.day < daysInMonth d.year d.month then ⟨d.year, d.month, d.day + 1⟩
  else if d.month < 12 then ⟨d.year, d.month + 1, 1⟩
  else ⟨d.year + 1, 1, 1⟩

/-- `date - timedelta(days = 1)`: the previous calendar day. -/
def prevDay (d : Date) : Date :=
  if 1 < d.day then ⟨d.year, d.month, d.day - 1⟩
  else if 1 < d.month then ⟨d.year, d.month - 1, daysInMonth d.year (d.month - 1)⟩
  else ⟨d.year - 1, 12, 31⟩

/-- Days strictly before month `m` within a year `y`
(`daysBeforeMonth y 1 = 0`). -/
def daysBeforeMonth (y : Nat) : Nat → Nat
  | 0 => 0
  | m + 1 => daysBeforeMonth y m + if m = 0 then 0 else daysInMonth y m

/-- Days strictly before year `y` (years are counted from 1, as in the
proleptic Gregorian ordinal used by Python `datetime`). -/
def daysBeforeYear : Nat → Nat
  | 0 => 0
  | y + 1 => daysBeforeYear y + if y = 0 then 0 else daysInYear y

/-- Proleptic Gregorian day ordinal of a date (January 1 of year 1 is
ordinal 1), mirroring `datetime.date.toordinal`. -/
def toOrdinal (d : Date) : Nat :=
  daysBeforeYear d.year + daysBeforeMonth d.year d.month + d.day

/-! ## String formatting (embedding of `strftime` / `str.zfill`) -/

/-- Zero-pad a natural number to two digits, as `'{:02d}'.format` and
`str(m).zfill(2)` do for month numbers. -/
def pad2 (n : Nat) : String :=
  if n < 10 then "0" ++ toString n else toString n

/-- Zero-pad a natural number to four digits, as `strftime('%Y')` renders
a (four-digit) year. -/
def pad4 (n : Nat) : String :=
  if n < 10 then "000" ++ toString n
  else if n < 100 then "00" ++ toString n
  else if n < 1000 then "0" ++ toString n
  else toString n

/-- `d.strftime('%Y%m%d1200')`. -/
def strftimeYmd1200 (d : Date) : String :=
  pad4 d.year ++ pad2 d.month ++ pad2 d.day ++ "1200"

/-! ## `construct_filename` (icedrift_lr.py, lines 13–23) -/

/-- Embedding of `construct_filename(date)`:
`before = date - 1 day`, `after = date + 1 day`, then the fixed-format
filename with both dates rendered as `%Y%m%d1200`. -/
def construct_filename (date : Date) : String :=
  let before := prevDay date
  let after := nextDay date
  "ice_drift_nh_polstere-625_multi-oi_" ++ strftimeYmd1200 before ++ "-"
    ++ strftimeYmd1200 after ++ ".nc"

/-! ## Remote catalog path (icedrift_lr.py, lines 163–174) -/

/-- The hard-coded THREDDS catalog root from `open_remote_file`. -/
def thredds_root : String :=
  "https://thredds.met.no/thredds/catalog/osisaf/met.no/ice/drift_lr/merged/"

/-- Embedding of the year/month selection of `open_remote_file`:
`Y = date.year`, `m = date.month`, but if the date is December 31 then
`Y += 1; m = 1`. -/
def catalogYearMonth (date : Date) : Nat × Nat :=
  if date.month = 12 ∧ date.day = 31 then (date.year + 1, 1)
  else (date.year, date.month)

/-- Embedding of the `catalog_url` f-string in `open_remote_file`:
`f'{root}{Y}/{str(m).zfill(2)}/catalog.xml'`. -/
def catalog_url (date : Date) : String :=
  thredds_root ++ toString (catalogYearMonth date).1 ++ "/"
    ++ pad2 (catalogYearMonth date).2 ++ "/catalog.xml"

/-- Modelled from the spec's words (not from the source), for comparison
with `catalog_url`: the catalog URL whose year and month are those of the
later bracketing date `D + 1 day`, as claim C2 states. -/
def spec_catalog_url (date : Date) : String :=
  thredds_root ++ toString (nextDay date).year ++ "/"
    ++ pad2 (nextDay date).month ++ "/catalog.xml"

/-! ## Remote file-list check (icedrift_lr.py, lines 180–188) -/

/-- The warning printed when the desired file is absent from the catalog:
`f'!!! {file} not in file list for {Y}/{m} catalog'`. -/
def remote_warning (desired : String) (Y m : Nat) : String :=
  "!!! " ++ desired ++ " not in file list for " ++ toString Y ++ "/"
    ++ pad2 m ++ " catalog"

/-- Embedding of `open_remote_file`'s file-selection phase.  `fetch`
stands for `TDSCatalog(catalog_url).datasets` (a list of filenames).
The Python local `download_file` is only assigned in the `else` branch;
being unassigned is modelled as `none`.  The function returns the printed
messages together with the value of `download_file` at the point where
`download_file.remote_access(...)` is about to run. -/
def open_remote_file_select (fetch : String → List String) (date : Date) :
    List String × Option String :=
  let Y := (catalogYearMonth date).1
  let m := (catalogYearMonth date).2
  let url := catalog_url date
  let files := fetch url
  let desired_file := construct_filename date
  if desired_file ∉ files then
    ([remote_warning desired_file Y m], none)
  else
    ([], some desired_file)

/-! ## Gridded dataset model

NumPy 2-D arrays whose entries may be NaN are embedded as functions
`Idx → Option ℚ`, `none` standing for NaN; float arithmetic on such
entries propagates `none`, exactly as NaN propagates through `+`, `/`.
Unit-carrying `pint` quantities are embedded as plain rationals together
with the rational factor converting the variable's declared unit to the
target unit. -/

/-- Grid cell index `(i, j)` (row, column). -/
def Idx : Type := Nat × Nat

/-- An opened OSI-SAF NetCDF dataset, restricted to the variables read by
`extract_data_from_ds`.  Each `*_toM` field is the scale factor that
`pint`'s `.to('m')` applies to that variable's declared unit (e.g. 1000
for km). -/
structure Dataset where
  xc : Nat → ℚ
  xc_toM : ℚ
  yc : Nat → ℚ
  yc_toM : ℚ
  dX : Idx → Option ℚ
  dX_toM : ℚ
  dY : Idx → Option ℚ
  dY_toM : ℚ
  dY_v1p4 : Option (Idx → Option ℚ)
  lat1 : Idx → Option ℚ
  lon1 : Idx → Option ℚ
  lat : Idx → Option ℚ
  lon : Idx → Option ℚ
  t0 : ℚ
  t1 : ℚ

/-- The dictionary built by `extract_data_from_ds` (the entries the later
stages read; times are in days since an epoch). -/
structure DataDict where
  x0 : Nat → ℚ
  y0 : Nat → ℚ
  xx0 : Idx → ℚ
  yy0 : Idx → ℚ
  dx : Idx → Option ℚ
  dy : Idx → Option ℚ
  lat1 : Idx → Option ℚ
  lon1 : Idx → Option ℚ
  lat0 : Idx → Option ℚ
  lon0 : Idx → Option ℚ
  time0 : ℚ
  time1 : ℚ

/-! ## `extract_data_from_ds` (icedrift_lr.py, lines 60–113) -/

/-- Embedding of `extract_data_from_ds(ds)`.  Positions and displacements
are converted to meters by their unit factors; `np.meshgrid(x0, y0)`
gives `xx0[i,j] = x0[j]`, `yy0[i,j] = y0[i]`; `dy` is read from
`dY_v1p4` when that variable is present (still scaled with `dY`'s
declared unit, as in the source), and from the legacy `dY` otherwise. -/
def extract_data_from_ds (ds : Dataset) : DataDict where
  x0 := fun j => ds.xc j * ds.xc_toM
  y0 := fun i => ds.yc i * ds.yc_toM
  xx0 := fun ij => ds.xc ij.2 * ds.xc_toM
  yy0 := fun ij => ds.yc ij.1 * ds.yc_toM
  dx := fun ij => (ds.dX ij).map (· * ds.dX_toM)
  dy := match ds.dY_v1p4 with
    | some g => fun ij => (g ij).map (· * ds.dY_toM)
    | none => fun ij => (ds.dY ij).map (· * ds.dY_toM)
  lat1 := ds.lat1
  lon1 := ds.lon1
  lat0 := ds.lat
  lon0 := ds.lon
  time0 := ds.t0
  time1 := ds.t1

/-! ## `estimate_velocity` (icedrift_lr.py, lines 115–145) -/

/-- The dictionary after `estimate_velocity` has added its keys.  The
original entries are carried unchanged in `toDataDict`. -/
structure VelDict extends DataDict where
  xmid : Idx → ℚ
  ymid : Idx → ℚ
  timemid : ℚ
  x1 : Idx → Option ℚ
  y1 : Idx → Option ℚ
  dt : ℚ
  u : Idx → Option ℚ
  v : Idx → Option ℚ

/-- `np.copy` followed by `arr[np.isnan(arr)] = 0`: the NaN entries of a
copy are replaced by zero; the original array is untouched. -/
def fillNaNZero (g : Idx → Option ℚ) : Idx → ℚ :=
  fun ij => (g ij).getD 0

/-- `pint`'s `.to('cm/s')` applied to a quantity in m/day:
multiply by 100 (m → cm) and divide by 86400 (day → s). -/
def mPerDay_to_cmPerS (r : ℚ) : ℚ :=
  r * (100 / 86400)

/-- Embedding of `estimate_velocity(data)`.  Midpoints use the
NaN-to-zero copies `dX`, `dY`; final positions and velocities use the
original `dx`, `dy` (so NaN propagates into them); `delta_t` is
`(time1 - time0)` in days. -/
def estimate_velocity (data : DataDict) : VelDict where
  toDataDict := data
  xmid := fun ij => data.xx0 ij + fillNaNZero data.dx ij / 2
  ymid := fun ij => data.yy0 ij + fillNaNZero data.dy ij / 2
  timemid := data.time0 + (data.time1 - data.time0) / 2
  x1 := fun ij => (data.dx ij).map (fun w => data.xx0 ij + w)
  y1 := fun ij => (data.dy ij).map (fun w => data.yy0 ij + w)
  dt := data.time1 - data.time0
  u := fun ij => (data.dx ij).map
    (fun w => mPerDay_to_cmPerS (w / (data.time1 - data.time0)))
  v := fun ij => (data.dy ij).map
    (fun w => mPerDay_to_cmPerS (w / (data.time1 - data.time0)))

/-! ## `open_local_file` (icedrift_lr.py, lines 205–259) and the legacy
`grab_OSISAF_drift` (src/icedrift.py, lines 46–103) -/

/-- The relative path built by `open_local_file` (lines 230–237):
`f"{year}/{month}/" + construct_filename(date)` with `year`, `month`
taken from `after = date + 1 day`. -/
def open_local_file_relpath (date : Date) : String :=
  let after := nextDay date
  let year := after.year
  let month := pad2 after.month
  (toString year ++ "/" ++ month ++ "/") ++ construct_filename date

/-- Embedding of `open_local_file(date, main_path)`.  `fs` stands for the
local filesystem: `fs p = some ds` when `xr.open_dataset(p)` succeeds.
On failure the function prints a diagnostic and returns `None`. -/
def open_local_file (fs : String → Option Dataset) (date : Date)
    (main_path : String) : List String × Option VelDict :=
  let file := open_local_file_relpath date
  match fs (main_path ++ file) with
  | none => (["!!! " ++ file ++ " not found in " ++ main_path], none)
  | some ds => ([], some (estimate_velocity (extract_data_from_ds ds)))

/-- The relative path built by the legacy `grab_OSISAF_drift`
(src/icedrift.py, line 89): a single f-string
`f"{year}/{month}/ice_drift_nh_polstere-625_multi-oi_{before}-{after}.nc"`
with `year`, `month` from `after = date + 1 day`. -/
def grab_OSISAF_drift_relpath (date : Date) : String :=
  let before := prevDay date
  let after := nextDay date
  let year := after.year
  let month := pad2 after.month
  toString year ++ "/" ++ month ++ "/ice_drift_nh_polstere-625_multi-oi_"
    ++ strftimeYmd1200 before ++ "-" ++ strftimeYmd1200 after ++ ".nc"

/-! ## Concrete test fixtures -/

/-- A synthetic extracted dictionary whose displacement entries are all
missing (NaN) and whose initial grid positions are nonzero. -/
def exampleDataNaN : DataDict where
  x0 := fun _ => 7
  y0 := fun _ => 11
  xx0 := fun _ => 7
  yy0 := fun _ => 11
  dx := fun _ => none
  dy := fun _ => none
  lat1 := fun _ => none
  lon1 := fun _ => none
  lat0 := fun _ => none
  lon0 := fun _ => none
  time0 := 0
  time1 := 2

/-- A synthetic extracted dictionary with displacement 100000 m
everywhere and a 2-day interval (`time1 - time0 = 2`). -/
def exampleDataDrift : DataDict where
  x0 := fun _ => 0
  y0 := fun _ => 0
  xx0 := fun _ => 0
  yy0 := fun _ => 0
  dx := fun _ => some 100000
  dy := fun _ => some 100000
  lat1 := fun _ => none
  lon1 := fun _ => none
  lat0 := fun _ => none
  lon0 := fun _ => none
  time0 := 0
  time1 := 2

/-- A synthetic dataset carrying the corrected `dY_v1p4` variable (values
7) alongside the legacy `dY` (values 3). -/
def exampleDS : Dataset where
  xc := fun _ => 0
  xc_toM := 1000
  yc := fun _ => 0
  yc_toM := 1000
  dX := fun _ => some 1
  dX_toM := 1000
  dY := fun _ => some 3
  dY_toM := 1
  dY_v1p4 := some (fun _ => some 7)
  lat1 := fun _ => none
  lon1 := fun _ => none
  lat := fun _ => none
  lon := fun _ => none
  t0 := 0
  t1 := 2

/-! ## Calendar lemmas: the successor/predecessor functions really move
one day in the proleptic Gregorian ordinal. -/

theorem daysBeforeMonth_twelve (y : Nat) :
    daysBeforeMonth y 12 + daysInMonth y 12 = daysInYear y := by
  cases h : isLeap y <;>
    simp [daysBeforeMonth, daysInMonth, daysInYear, h]

theorem daysBeforeMonth_succ (y m : Nat) (hm : 1 ≤ m) :
    daysBeforeMonth y (m + 1) = daysBeforeMonth y m + daysInMonth y m := by
  have : ¬ m = 0 := by omega
  simp [daysBeforeMonth, this]

theorem daysBeforeYear_succ (y : Nat) (hy : 1 ≤ y) :
    daysBeforeYear (y + 1) = daysBeforeYear y + daysInYear y := by
  have : ¬ y = 0 := by omega
  simp [daysBeforeYear, this]

theorem daysBeforeMonth_pred (y m : Nat) (h1 : 2 ≤ m) :
    daysBeforeMonth y m = daysBeforeMonth y (m - 1) + daysInMonth y (m - 1) := by
  obtain ⟨k, rfl⟩ : ∃ k, m = k + 1 := ⟨m - 1, by omega⟩
  simp [daysBeforeMonth_succ y k (by omega)]

theorem daysBeforeYear_pred (y : Nat) (h1 : 2 ≤ y) :
    daysBeforeYear y = daysBeforeYear (y - 1) + daysInYear (y - 1) := by
  obtain ⟨k, rfl⟩ : ∃ k, y = k + 1 := ⟨y - 1, by omega⟩
  simp [daysBeforeYear_succ k (by omega)]

theorem toOrdinal_nextDay (d : Date) (h : d.Valid) :
    toOrdinal (nextDay d) = toOrdinal d + 1 := by
  obtain ⟨hy, hm1, hm12, hd1, hd2⟩ := h
  unfold nextDay
  by_cases h1 : d.day < daysInMonth d.year d.month
  · rw [if_pos h1]
    show daysBeforeYear d.year + daysBeforeMonth d.year d.month + (d.day + 1)
      = daysBeforeYear d.year + daysBeforeMonth d.year d.month + d.day + 1
    omega
  · rw [if_neg h1]
    have hday : d.day = daysInMonth d.year d.month := by omega
    by_cases h2 : d.month < 12
    · rw [if_pos h2]
      show daysBeforeYear d.year + daysBeforeMonth d.year (d.month + 1) + 1
        = daysBeforeYear d.year + daysBeforeMonth d.year d.month + d.day + 1
      rw [daysBeforeMonth_succ _ _ hm1]
      omega
    · rw [if_neg h2]
      have hm : d.month = 12 := by omega
      have hsum := daysBeforeMonth_twelve d.year
      have h31 : daysInMonth d.year 12 = 31 := rfl
      have hb1 : daysBeforeMonth (d.year + 1) 1 = 0 := rfl
      show daysBeforeYear (d.year + 1) + daysBeforeMonth (d.year + 1) 1 + 1
        = daysBeforeYear d.year + daysBeforeMonth d.year d.month + d.day + 1
      rw [daysBeforeYear_succ _ hy, hb1, hm]
      rw [hm] at hday
      omega

theorem toOrdinal_prevDay (d : Date) (h : d.Valid) (h2 : 2 ≤ toOrdinal d) :
    toOrdinal (prevDay d) + 1 = toOrdinal d := by
  obtain ⟨hy, hm1, hm12, hd1, hd2⟩ := h
  unfold prevDay
  by_cases hd : 1 < d.day
  · rw [if_pos hd]
    show daysBeforeYear d.year + daysBeforeMonth d.year d.month + (d.day - 1) + 1
      = toOrdinal d
    unfold toOrdinal
    omega
  · rw [if_neg hd]
    have hday : d.day = 1 := by omega
    by_cases hm : 1 < d.month
    · rw [if_pos hm]
      show daysBeforeYear d.year + daysBeforeMonth d.year (d.month - 1)
          + daysInMonth d.year (d.month - 1) + 1
        = toOrdinal d
      unfold toOrdinal
      rw [daysBeforeMonth_pred d.year d.month (by omega)]
      omega
    · rw [if_neg hm]
      have hmo : d.month = 1 := by omega
      by_cases hy2 : 2 ≤ d.year
      · show daysBeforeYear (d.year - 1) + daysBeforeMonth (d.year - 1) 12 + 31 + 1
          = toOrdinal d
        unfold toOrdinal
        have hsum := daysBeforeMonth_twelve (d.year - 1)
        have h31 : daysInMonth (d.year - 1) 12 = 31 := rfl
        have hb1 : daysBeforeMonth d.year 1 = 0 := rfl
        rw [daysBeforeYear_pred d.year hy2, hmo, hb1]
        omega
      · exfalso
        have hy1 : d.year = 1 := by omega
        unfold toOrdinal at h2
        rw [hy1, hmo, hday] at h2
        simp [daysBeforeYear, daysBeforeMonth] at h2

/-! ## Claim theorems -/

/-- Claim C1: for every valid calendar date `D`, `construct_filename D` is
exactly `ice_drift_nh_polstere-625_multi-oi_<before>-<after>.nc` where
`<before>` and `<after>` are `D` minus one day and `D` plus one day
rendered as `%Y%m%d1200`; the bracketing dates really are one ordinal
day before and after `D`. -/
theorem construct_filename_brackets (d : Date) (h : d.Valid) :
    construct_filename d
      = "ice_drift_nh_polstere-625_multi-oi_" ++ strftimeYmd1200 (prevDay d)
        ++ "-" ++ strftimeYmd1200 (nextDay d) ++ ".nc"
    ∧ toOrdinal (nextDay d) = toOrdinal d + 1
    ∧ (2 ≤ toOrdinal d → toOrdinal (prevDay d) + 1 = toOrdinal d) :=
  ⟨rfl, toOrdinal_nextDay d h, toOrdinal_prevDay d h⟩

/-- Witness for C1 at the leap-year boundary March 1 of year 4 (a leap
year): the filename brackets February 29 and March 2. -/
theorem construct_filename_brackets_witness :
    Date.Valid ⟨4, 3, 1⟩
    ∧ construct_filename ⟨4, 3, 1⟩
        = "ice_drift_nh_polstere-625_multi-oi_000402291200-000403021200.nc"
    ∧ toOrdinal (nextDay ⟨4, 3, 1⟩) = toOrdinal ⟨4, 3, 1⟩ + 1
    ∧ toOrdinal (prevDay ⟨4, 3, 1⟩) + 1 = toOrdinal ⟨4, 3, 1⟩ := by
  have h := construct_filename_brackets ⟨4, 3, 1⟩ (by decide)
  exact ⟨by decide, h.1.trans (by decide), h.2.1, h.2.2 (by decide)⟩

/-- Claim C2 counterexample: at `D = 2024-01-31` the catalog URL built by
`open_remote_file` uses `2024/01` (the requested date's own year/month),
not the year/month of the later bracketing date `D + 1 = 2024-02-01`
that the claim prescribes. -/
theorem catalog_url_ne_spec_at_jan31 :
    catalog_url ⟨2024, 1, 31⟩ ≠ spec_catalog_url ⟨2024, 1, 31⟩ := by decide

/-- Claim C2 (amended): the remote catalog URL is `<root>/<Y>/<MM>/catalog.xml`
where `Y` and `MM` are the year and zero-padded month of the requested
date itself, except on December 31, when they are January of the
following year. -/
theorem catalog_url_year_month (d : Date) :
    catalog_url d
      = thredds_root
        ++ toString (if d.month = 12 ∧ d.day = 31 then d.year + 1 else d.year)
        ++ "/"
        ++ pad2 (if d.month = 12 ∧ d.day = 31 then 1 else d.month)
        ++ "/catalog.xml" := by
  by_cases h : d.month = 12 ∧ d.day = 31 <;>
    simp [catalog_url, catalogYearMonth, h]

/-- Claim C6: for every December 31 date, the remote catalog year/month used by
`open_remote_file` is January of the following year. -/
theorem catalog_url_dec31 (d : Date) (h12 : d.month = 12) (h31 : d.day = 31) :
    catalog_url d
      = thredds_root ++ toString (d.year + 1) ++ "/" ++ "01" ++ "/catalog.xml" := by
  simp [catalog_url, catalogYearMonth, h12, h31, pad2]
  have h01 : ("0" : String) ++ toString 1 = "01" := rfl
  rw [h01]

/-- Witness for C6 at `D = 2024-12-31`: the catalog resolves to 2025/01. -/
theorem catalog_url_dec31_witness :
    catalog_url ⟨2024, 12, 31⟩
      = "https://thredds.met.no/thredds/catalog/osisaf/met.no/ice/drift_lr/merged/2025/01/catalog.xml" :=
  (catalog_url_dec31 ⟨2024, 12, 31⟩ rfl rfl).trans (by decide)

/-- Claim C10: for every date, the legacy local reader `grab_OSISAF_drift` and
the newer `open_local_file` build exactly the same relative path
`<year>/<month>/<filename>`. -/
theorem local_relpaths_agree (d : Date) :
    grab_OSISAF_drift_relpath d = open_local_file_relpath d := by
  unfold grab_OSISAF_drift_relpath open_local_file_relpath construct_filename
  apply String.ext
  simp [String.data_append]

/-- Claim C3: at every cell where a displacement component is missing (NaN),
the derived midpoint position on that axis equals the initial position
unchanged — the missing displacement is treated as zero, not
propagated. -/
theorem midpoint_nan_fallback (data : DataDict) (ij : Idx) :
    (data.dx ij = none → (estimate_velocity data).xmid ij = data.xx0 ij)
    ∧ (data.dy ij = none → (estimate_velocity data).ymid ij = data.yy0 ij) := by
  constructor <;> intro h <;> simp [estimate_velocity, fillNaNZero, h]

/-- Witness for C3 on a synthetic dictionary with missing displacement:
the midpoint equals the initial position 7 (resp. 11). -/
theorem midpoint_nan_fallback_witness :
    exampleDataNaN.dx (0, 0) = none
    ∧ (estimate_velocity exampleDataNaN).xmid (0, 0) = 7
    ∧ (estimate_velocity exampleDataNaN).ymid (0, 0) = 11 := by
  have h := midpoint_nan_fallback exampleDataNaN (0, 0)
  exact ⟨rfl, h.1 rfl, h.2 rfl⟩

/-- Claim C4 counterexample: for displacement 100000 m over 2 elapsed days the
code computes `(dx / delta_t).to('cm/s') = 3125/54 ≈ 57.87 cm/s`, which
is between 57 and 58 — not approximately 0.5787 cm/s as the claim's
numeric example states (0.5787 is the value in m/s, off by 100×). -/
theorem velocity_example_is_57_87 :
    (estimate_velocity exampleDataDrift).u (0, 0) = some (3125 / 54)
    ∧ (57 : ℚ) < 3125 / 54 ∧ (3125 : ℚ) / 54 < 58 := by
  refine ⟨?_, by norm_num, by norm_num⟩
  simp [estimate_velocity, exampleDataDrift, mPerDay_to_cmPerS]
  norm_num

/-- Claim C4 (amended): each velocity component equals displacement divided by
the elapsed time `time1 - time0` in days, converted from m/day to cm/s by
the factor 100/86400; for displacement 100000 m over 2 days this gives
3125/54 ≈ 57.87 cm/s (not 0.5787, which is the m/s value). -/
theorem velocity_formula (data : DataDict) (ij : Idx) (w : ℚ) :
    (data.dx ij = some w → (estimate_velocity data).u ij
      = some (w / (data.time1 - data.time0) * (100 / 86400)))
    ∧ (data.dy ij = some w → (estimate_velocity data).v ij
      = some (w / (data.time1 - data.time0) * (100 / 86400))) := by
  constructor <;> intro h <;> simp [estimate_velocity, mPerDay_to_cmPerS, h]

/-- Witness for the amended C4 on the synthetic 100000 m / 2 day
dictionary. -/
theorem velocity_formula_witness :
    exampleDataDrift.dx (0, 0) = some 100000
    ∧ (estimate_velocity exampleDataDrift).u (0, 0)
        = some (100000 / (exampleDataDrift.time1 - exampleDataDrift.time0)
            * (100 / 86400)) :=
  ⟨rfl, (velocity_formula exampleDataDrift (0, 0) 100000).1 rfl⟩

/-- Claim C5: when the corrected y-displacement variable `dY_v1p4` is present
in the dataset, `extract_data_from_ds` reads the y-displacement values
from it; when it is absent, the legacy `dY` variable is used (both scaled
to meters with the declared unit of `dY`, as in the source). -/
theorem extract_dy_variant (ds : Dataset) (g : Idx → Option ℚ) (ij : Idx) :
    (ds.dY_v1p4 = some g →
      (extract_data_from_ds ds).dy ij = (g ij).map (· * ds.dY_toM))
    ∧ (ds.dY_v1p4 = none →
      (extract_data_from_ds ds).dy ij = (ds.dY ij).map (· * ds.dY_toM)) := by
  constructor <;> intro h <;> simp [extract_data_from_ds, h]

/-- Witness for C5 on a dataset carrying `dY_v1p4 = 7` alongside the
legacy `dY = 3`: extraction returns 7, not 3. -/
theorem extract_dy_variant_witness :
    exampleDS.dY (0, 0) = some 3
    ∧ (extract_data_from_ds exampleDS).dy (0, 0) = some (7 * exampleDS.dY_toM) :=
  ⟨rfl, (extract_dy_variant exampleDS (fun _ => some 7) (0, 0)).1 rfl⟩

/-- Claim C7: whenever the resolved local path is absent from the filesystem,
`open_local_file` prints a diagnostic naming the file and the root
directory and returns `None` instead of raising. -/
theorem open_local_file_missing (fs : String → Option Dataset) (d : Date)
    (mp : String) (h : fs (mp ++ open_local_file_relpath d) = none) :
    open_local_file fs d mp
      = (["!!! " ++ open_local_file_relpath d ++ " not found in " ++ mp], none) := by
  simp [open_local_file, h]

/-- Witness for C7 on an empty filesystem. -/
theorem open_local_file_missing_witness :
    open_local_file (fun _ => none) ⟨4, 3, 1⟩ "/data/"
      = (["!!! " ++ open_local_file_relpath ⟨4, 3, 1⟩ ++ " not found in /data/"],
          none) :=
  open_local_file_missing (fun _ => none) ⟨4, 3, 1⟩ "/data/" rfl

/-- Claim C8: whenever the resolved filename is absent from the fetched remote
catalog listing, `open_remote_file` prints a warning naming the file and
the catalog's year/month, and continues with the `download_file`
reference still unassigned (`none`) rather than aborting at the check. -/
theorem open_remote_file_missing (fetch : String → List String) (d : Date)
    (h : construct_filename d ∉ fetch (catalog_url d)) :
    open_remote_file_select fetch d
      = ([remote_warning (construct_filename d) (catalogYearMonth d).1
            (catalogYearMonth d).2], none) := by
  simp [open_remote_file_select, h]

/-- Witness for C8 on an empty remote catalog. -/
theorem open_remote_file_missing_witness :
    open_remote_file_select (fun _ => []) ⟨4, 3, 1⟩
      = ([remote_warning (construct_filename ⟨4, 3, 1⟩)
            (catalogYearMonth ⟨4, 3, 1⟩).1 (catalogYearMonth ⟨4, 3, 1⟩).2],
          none) :=
  open_remote_file_missing (fun _ => []) ⟨4, 3, 1⟩ (by simp)

/-- Claim C9: `estimate_velocity` leaves the extracted displacement entries
`dx`/`dy` unchanged (NaN-to-zero replacement happens on copies); hence at
cells with missing displacement the final positions and velocities are
missing too, while the midpoint falls back to the initial position. -/
theorem estimate_velocity_frame (data : DataDict) (ij : Idx) :
    ((estimate_velocity data).dx = data.dx ∧ (estimate_velocity data).dy = data.dy)
    ∧ (data.dx ij = none →
        (estimate_velocity data).x1 ij = none
        ∧ (estimate_velocity data).u ij = none
        ∧ (estimate_velocity data).xmid ij = data.xx0 ij)
    ∧ (data.dy ij = none →
        (estimate_velocity data).y1 ij = none
        ∧ (estimate_velocity data).v ij = none
        ∧ (estimate_velocity data).ymid ij = data.yy0 ij) := by
  refine ⟨⟨rfl, rfl⟩, fun h => ?_, fun h => ?_⟩ <;>
    simp [estimate_velocity, fillNaNZero, h]

/-- Witness for C9 on the synthetic all-missing dictionary: originals
kept, final position and velocity missing, midpoint fallen back. -/
theorem estimate_velocity_frame_witness :
    exampleDataNaN.dx (1, 2) = none
    ∧ (estimate_velocity exampleDataNaN).dx = exampleDataNaN.dx
    ∧ (estimate_velocity exampleDataNaN).x1 (1, 2) = none
    ∧ (estimate_velocity exampleDataNaN).u (1, 2) = none
    ∧ (estimate_velocity exampleDataNaN).xmid (1, 2) = exampleDataNaN.xx0 (1, 2) := by
  have h := estimate_velocity_frame exampleDataNaN (1, 2)
  exact ⟨rfl, h.1.1, (h.2.1 rfl).1, (h.2.1 rfl).2.1, (h.2.1 rfl).2.2⟩

end OSISAF
